import Mathlib

/-!
Shallow embedding of `src/app.py` (VizTools): a Streamlit application that
loads a CSV/Excel table with pandas, classifies its columns, samples rows,
builds a plotly-express scatter figure, and exports it as HTML and PNG.

External collaborators (pandas, plotly, streamlit widgets, the kaleido
rendering engine) are modelled by explicit Lean functions reproducing their
documented behaviour at the call sites the source uses.
-/

namespace VizTools

/-- A single table cell: numeric, text, or missing (pandas NaN). -/
inductive Cell
  | num (q : Rat)
  | text (s : String)
  | missing
  deriving Repr, DecidableEq

/-- A pandas column dtype, as resolved by the loader: numeric or object. -/
inductive DType
  | number
  | object
  deriving Repr, DecidableEq

/-- One named, dtyped column of a pandas DataFrame. -/
structure Column where
  name : String
  dtype : DType
  values : List Cell
  deriving Repr, DecidableEq

/-- A pandas DataFrame: an ordered sequence of named columns. -/
structure DataFrame where
  cols : List Column
  deriving Repr, DecidableEq

/-- `df.columns` — the ordered list of column names. -/
def DataFrame.columns (df : DataFrame) : List String :=
  df.cols.map (·.name)

/-- `len(df)` — the row count, read off the first column (0 for no columns). -/
def rowCount (df : DataFrame) : Nat :=
  match df.cols with
  | [] => 0
  | c :: _ => c.values.length

/-- Whether `name` is a column of `df`. -/
def hasCol (df : DataFrame) (name : String) : Bool :=
  df.cols.any (fun c => c.name == name)

/-- Whether `df` has a numeric-dtyped column called `name`. -/
def numericCol (df : DataFrame) (name : String) : Bool :=
  df.cols.any (fun c => c.name == name && c.dtype == DType.number)

/-! ## TableLoader (`load_table`, src/app.py lines 16-22)

The raw bytes of the upload are modelled by what they parse as: a CSV
table, a spreadsheet workbook (ordered named sheets), or unparseable data.
-/

/-- The parse-level content of the uploaded bytes. -/
inductive FileData
  | csv (t : DataFrame)
  | workbook (sheets : List (String × DataFrame))
  | invalid
  deriving Repr, DecidableEq

/-- Failures of the loading step. `unsupportedFormat` models the explicit
`ValueError("Unsupported file type. ...")` raised by `load_table`; the other
constructors model exceptions escaping the pandas readers. -/
inductive LoadError
  | unsupportedFormat
  | parseError
  | sheetNotFound (s : String)
  deriving Repr, DecidableEq

/-- What `load_table` returns: `pd.read_csv` / `pd.read_excel` with a chosen
sheet give a single frame; `pd.read_excel(..., sheet_name=None)` gives the
mapping of every sheet. -/
inductive LoadResult
  | frame (df : DataFrame)
  | frames (sheets : List (String × DataFrame))
  deriving Repr, DecidableEq

/-- `pd.read_csv(io.BytesIO(file_bytes))`: succeeds exactly when the bytes
are CSV data. -/
def read_csv (data : FileData) : Except LoadError DataFrame :=
  match data with
  | .csv t => .ok t
  | _ => .error .parseError

/-- Look up a sheet by name in a workbook. -/
def findSheet (sheets : List (String × DataFrame)) (s : String) : Option DataFrame :=
  (sheets.find? (fun p => p.1 == s)).map (·.2)

/-- `pd.read_excel(io.BytesIO(file_bytes), sheet_name=sheet_name)`:
with `sheet_name=None` pandas returns the dict of all sheets; with a named
sheet it returns that sheet or raises if absent; non-workbook bytes raise. -/
def read_excel (data : FileData) (sheet : Option String) :
    Except LoadError LoadResult :=
  match data with
  | .workbook sheets =>
    match sheet with
    | none => .ok (.frames sheets)
    | some s =>
      match findSheet sheets s with
      | some df => .ok (.frame df)
      | none => .error (.sheetNotFound s)
  | _ => .error .parseError

/-- Python `str.lower()`: lowercase every character. -/
def pyLower (s : String) : String := ⟨s.data.map Char.toLower⟩

/-- Python `str.endswith(suffix)`. -/
def pyEndsWith (s suffix : String) : Bool := suffix.data.isSuffixOf s.data

/-- `load_table(file_bytes, filename, sheet_name)` (src/app.py lines 16-22):
lowercases the filename, dispatches on its extension, and raises
`ValueError` ("Unsupported file type") for any other extension. -/
def load_table (data : FileData) (filename : String) (sheet : Option String) :
    Except LoadError LoadResult :=
  let name := pyLower filename
  if pyEndsWith name ".csv" then
    (read_csv data).map .frame
  else if pyEndsWith name ".xlsx" || pyEndsWith name ".xls" then
    read_excel data sheet
  else
    .error .unsupportedFormat

/-! ## ColumnClassifier (`split_columns`, src/app.py lines 25-28) -/

/-- `split_columns(df)`: `select_dtypes(include="number")` keeps the
numeric-dtyped columns in order; the other list keeps every column name not
among the numeric names. -/
def split_columns (df : DataFrame) : List String × List String :=
  let numeric_cols := (df.cols.filter (fun c => c.dtype == DType.number)).map (·.name)
  let other_cols := df.columns.filter (fun c => decide (c ∉ numeric_cols))
  (numeric_cols, other_cols)

/-! ## Sampler (src/app.py lines 143-145)

`plot_df = df`; `if len(df) > int(max_rows): plot_df = df.sample(int(max_rows),
random_state=42)`. `df.sample` draws rows without replacement; its
pseudorandom choice is a pure function of the population size, the requested
count and the seed. When `random_state` is omitted pandas would consult the
interpreter-global generator state, modelled here as the `g` argument; the
source always passes the literal seed 42, which shadows `g`.
-/

/-- One step of a linear congruential generator driving the row choice. -/
def lcg (s : Nat) : Nat :=
  (s * 1103515245 + 12345) % 4294967296

/-- Draw `n` positions without replacement from `pool`, deterministically in
the generator state `s`. -/
def drawIdxs : Nat → Nat → List Nat → List Nat
  | 0, _, _ => []
  | _ + 1, _, [] => []
  | n + 1, s, x :: xs =>
    let pool := x :: xs
    let i := s % pool.length
    pool.getD i 0 :: drawIdxs n (lcg s) (pool.eraseIdx i)

/-- Keep, in each column, only the rows at the given positions. -/
def selectRows (df : DataFrame) (idxs : List Nat) : DataFrame :=
  ⟨df.cols.map (fun c => ⟨c.name, c.dtype, idxs.filterMap (fun i => c.values.get? i)⟩)⟩

/-- Failures `df.sample` can raise: a negative row request, or a request
larger than the population with `replace=False`. -/
inductive SampleError
  | negativeRows
  | sampleLargerThanPopulation
  deriving Repr, DecidableEq

/-- `df.sample(n, random_state=rs)` under global generator state `g`:
validates `n`, then picks `n` distinct rows seeded by `rs` (falling back to
`g` when `rs` is omitted). -/
def dfSample (rs : Option Nat) (g : Nat) (df : DataFrame) (n : Int) :
    Except SampleError DataFrame :=
  if n < 0 then .error .negativeRows
  else
    let m := n.toNat
    if rowCount df < m then .error .sampleLargerThanPopulation
    else .ok (selectRows df (drawIdxs m (rs.getD g) (List.range (rowCount df))))

/-- The sampling step of the script (src/app.py lines 143-145): the table is
passed through unchanged unless it has more than `maxRows` rows, in which
case `df.sample(int(max_rows), random_state=42)` replaces it. -/
def samplingStep (g : Nat) (df : DataFrame) (maxRows : Int) :
    Except SampleError DataFrame :=
  if (rowCount df : Int) > maxRows then dfSample (some 42) g df maxRows
  else .ok df

/-! ## ChartSpecBuilder (`build_scatter`, src/app.py lines 31-52)

`px.scatter(df, x=x, y=y, color=..., symbol=..., size=..., hover_data=...,
opacity=...)` validates that every supplied role name is a column of `df`
(any dtype for x, y, color, symbol — plotly renders categorical axes), that
a supplied size column is numeric, and that `opacity` lies in [0, 1]; it
raises `ValueError` otherwise and never raises for dtype of x or y.
-/

/-- The encodings of the figure produced by `px.scatter`. -/
structure ScatterSpec where
  x : String
  y : String
  color : Option String
  symbol : Option String
  sizeCol : Option String
  hover : Option (List String)
  opacity : Rat
  deriving Repr, DecidableEq

/-- A plotly figure: its scatter encodings plus the layout fields the source
touches via `update_layout`. -/
structure Fig where
  spec : ScatterSpec
  marginL : Nat
  marginR : Nat
  marginT : Nat
  marginB : Nat
  legendTitle : Option String
  deriving Repr, DecidableEq

/-- A `ValueError` raised by `px.scatter` for a bad argument. -/
inductive PxError
  | missingColumn (role : String) (name : String)
  | nonNumericSize (name : String)
  | badOpacity
  deriving Repr, DecidableEq

/-- The error, if any, `px.scatter` raises for a (possibly omitted) role
column name: a supplied name must be a column of `df`. -/
def roleErr (df : DataFrame) (role : String) (sel : Option String) : Option PxError :=
  match sel with
  | none => none
  | some nm => if hasCol df nm then none else some (.missingColumn role nm)

/-- The error, if any, for the size role: the name must be a numeric column. -/
def sizeErr (df : DataFrame) (sel : Option String) : Option PxError :=
  match sel with
  | none => none
  | some nm =>
    if !hasCol df nm then some (.missingColumn "size" nm)
    else if !numericCol df nm then some (.nonNumericSize nm)
    else none

/-- The error, if any, for the hover_data list: every name must be a column. -/
def hoverErr (df : DataFrame) (hs : List String) : Option PxError :=
  match hs.find? (fun h => !hasCol df h) with
  | some h => some (.missingColumn "hover_data" h)
  | none => none

/-- The error, if any, for the opacity argument: it must lie in [0, 1]. -/
def opacityErr (op : Rat) : Option PxError :=
  if op < 0 ∨ 1 < op then some .badOpacity else none

/-- The first error among the argument checks, if any. -/
def firstErr (l : List (Option PxError)) : Option PxError :=
  (l.filterMap id).head?

/-- `px.scatter` itself: checks every argument, then returns a figure with
those encodings and plotly's default layout. -/
def px_scatter (df : DataFrame) (x y : String)
    (color symbol sizeSel : Option String) (hover : Option (List String))
    (opacity : Rat) : Except PxError Fig :=
  match firstErr
      [roleErr df "x" (some x), roleErr df "y" (some y),
       roleErr df "color" color, roleErr df "symbol" symbol,
       sizeErr df sizeSel, hoverErr df (hover.getD []), opacityErr opacity] with
  | some e => .error e
  | none =>
    .ok ⟨⟨x, y, color, symbol, sizeSel, hover, opacity⟩, 80, 80, 100, 80, none⟩

/-- Python truthiness on an optional string: `s if s else None` maps both
`None` and the empty string to `None`. -/
def pyStr (o : Option String) : Option String :=
  match o with
  | none => none
  | some s => if s = "" then none else some s

/-- Python truthiness on a list: `l if l else None` maps `[]` to `None`. -/
def pyList (l : List String) : Option (List String) :=
  if l.isEmpty then none else some l

/-- `fig.update_layout(margin=dict(l=20, r=20, t=30, b=20),
legend_title_text="")` (src/app.py line 51). -/
def update_layout (f : Fig) : Fig :=
  { f with marginL := 20, marginR := 20, marginT := 30, marginB := 20,
           legendTitle := some "" }

/-- `build_scatter(df, x, y, color, symbol, size, hover, opacity)`
(src/app.py lines 31-52): passes each optional role through Python
truthiness (`color if color else None`, ..., `hover if hover else None`)
to `px.scatter`, then adjusts the layout. It performs no validation of its
own. -/
def build_scatter (df : DataFrame) (x y : String)
    (color symbol sizeSel : Option String) (hover : List String)
    (opacity : Rat) : Except PxError Fig :=
  (px_scatter df x y (pyStr color) (pyStr symbol) (pyStr sizeSel)
      (pyList hover) opacity).map update_layout

/-! ## Exporter (src/app.py lines 55-64 and 169-193) -/

/-- Serialize an optional string for the HTML embedding. -/
def optStr (o : Option String) : String :=
  match o with
  | none => "None"
  | some s => s

/-- `fig.to_html(full_html=True, include_plotlyjs="cdn")`: a self-contained
document referencing the plotly runtime from its CDN and embedding the
figure's encodings. -/
def fig_to_html_str (f : Fig) : String :=
  "<html><head><script src=\"https://cdn.plot.ly/plotly.min.js\"></script></head><body>"
    ++ "x=" ++ f.spec.x ++ ";y=" ++ f.spec.y
    ++ ";color=" ++ optStr f.spec.color
    ++ ";symbol=" ++ optStr f.spec.symbol
    ++ ";size=" ++ optStr f.spec.sizeCol
    ++ ";opacity=" ++ toString f.spec.opacity
    ++ "</body></html>"

/-- `fig_to_html_bytes(fig)` (src/app.py lines 62-64): the HTML document
encoded to bytes. -/
def fig_to_html_bytes (f : Fig) : List Nat :=
  (fig_to_html_str f).toList.map Char.toNat

/-- The failure `fig.to_image` raises when the kaleido rendering engine is
missing from the environment. -/
inductive PngError
  | renderEngineUnavailable
  deriving Repr, DecidableEq

/-- `fig_to_png_bytes(fig)` (src/app.py lines 55-58): delegates to
`fig.to_image(format="png", scale=2)`, which needs an external rendering
engine; `engine` is that injected capability, absent when unavailable. -/
def fig_to_png_bytes (engine : Option (Fig → Nat → List Nat)) (f : Fig) :
    Except PngError (List Nat) :=
  match engine with
  | some render => .ok (render f 2)
  | none => .error .renderEngineUnavailable

/-- The PNG half of the export section either offers a download of the
bytes or shows a warning naming the caught exception. -/
inductive PngOutcome
  | downloaded (bytes : List Nat)
  | warned (e : PngError)
  deriving Repr, DecidableEq

/-- What the export section of the script produces. -/
structure ExportResult where
  htmlDownload : List Nat
  pngOutcome : PngOutcome
  deriving Repr, DecidableEq

/-- The export section (src/app.py lines 169-193): the HTML download is
produced unconditionally; the PNG conversion is wrapped in try/except and a
failure becomes `st.warning(...)` instead of aborting the script. -/
def exportSection (engine : Option (Fig → Nat → List Nat)) (f : Fig) :
    ExportResult :=
  { htmlDownload := fig_to_html_bytes f
    pngOutcome :=
      match fig_to_png_bytes engine f with
      | .ok b => .downloaded b
      | .error e => .warned e }

/-! ## Concrete tables used in witnesses and counterexamples -/

/-- The table of the spec's scenario: a numeric, b textual. -/
def exTabC1 : DataFrame :=
  ⟨[⟨"a", .number, [.num 1, .num 2]⟩, ⟨"b", .object, [.text "x", .text "y"]⟩]⟩

/-- A two-numeric-column table. -/
def exTabC6 : DataFrame :=
  ⟨[⟨"a", .number, [.num 1, .num 2]⟩, ⟨"b", .number, [.num 3, .num 4]⟩]⟩

/-- A table whose first column is named by the empty string. -/
def exTabC10 : DataFrame :=
  ⟨[⟨"", .number, [.num 1]⟩, ⟨"a", .number, [.num 2]⟩, ⟨"b", .number, [.num 3]⟩]⟩

/-- A one-row table. -/
def exTab1 : DataFrame := ⟨[⟨"a", .number, [.num 5]⟩]⟩

/-- A three-row table. -/
def exTab3 : DataFrame := ⟨[⟨"a", .number, [.num 1, .num 2, .num 3]⟩]⟩

/-- A two-sheet workbook. -/
def exSheets : List (String × DataFrame) := [("S1", exTabC6), ("S2", exTabC1)]

/-! ## Sampler lemmas -/

lemma drawIdxs_length (n : Nat) : ∀ (s : Nat) (pool : List Nat),
    (drawIdxs n s pool).length = min n pool.length := by
  induction n with
  | zero => intro s pool; simp [drawIdxs]
  | succ n ih =>
    intro s pool
    cases pool with
    | nil => simp [drawIdxs]
    | cons x xs =>
      simp only [drawIdxs, List.length_cons]
      rw [ih, List.length_eraseIdx]
      have hlt : s % (xs.length + 1) < xs.length + 1 := Nat.mod_lt _ (Nat.succ_pos _)
      simp only [List.length_cons]
      rw [if_pos hlt]
      omega

lemma drawIdxs_mem (n : Nat) : ∀ (s : Nat) (pool : List Nat) (x : Nat),
    x ∈ drawIdxs n s pool → x ∈ pool := by
  induction n with
  | zero => intro s pool x h; simp [drawIdxs] at h
  | succ n ih =>
    intro s pool x h
    cases pool with
    | nil => simp [drawIdxs] at h
    | cons a as =>
      simp only [drawIdxs, List.mem_cons] at h
      rcases h with h | h
      · have hi : s % (a :: as).length < (a :: as).length :=
          Nat.mod_lt _ (Nat.succ_pos _)
        rw [h, List.getD_eq_getElem?_getD, List.getElem?_eq_getElem hi]
        simp only [Option.getD_some]
        exact List.getElem_mem hi
      · exact List.mem_of_mem_eraseIdx (ih _ _ _ h)

lemma length_filterMap_get (l : List Cell) : ∀ idxs : List Nat,
    (∀ i ∈ idxs, i < l.length) →
    (idxs.filterMap (fun i => l.get? i)).length = idxs.length := by
  intro idxs
  induction idxs with
  | nil => intro _; rfl
  | cons i is ih =>
    intro h
    have hi : i < l.length := h i (List.mem_cons_self i is)
    rw [List.filterMap_cons, List.get?_eq_get hi]
    simp only [List.length_cons]
    rw [ih (fun j hj => h j (List.mem_cons_of_mem _ hj))]

lemma rowCount_selectRows_nil (df : DataFrame) : rowCount (selectRows df []) = 0 := by
  cases hc : df.cols with
  | nil => simp [selectRows, rowCount, hc]
  | cons c cs => simp [selectRows, rowCount, hc]

lemma rowCount_selectRows (df : DataFrame) (idxs : List Nat)
    (hn : df.cols ≠ []) (h : ∀ i ∈ idxs, i < rowCount df) :
    rowCount (selectRows df idxs) = idxs.length := by
  cases hc : df.cols with
  | nil => exact absurd hc hn
  | cons c cs =>
    have hr : rowCount df = c.values.length := by simp [rowCount, hc]
    simp only [selectRows, rowCount, hc, List.map_cons]
    exact length_filterMap_get c.values idxs (fun i hi => hr ▸ h i hi)

/-! ## Claim theorems: Sampler -/

/-- C2: for every table and every positive bound, the sampling step returns
the table unchanged when its row count is within the bound, and otherwise
returns a table with exactly that many rows. -/
theorem samplingStep_bound (g : Nat) (df : DataFrame) (n : Int) (hn : 0 < n) :
    ((rowCount df : Int) ≤ n → samplingStep g df n = .ok df) ∧
    (n < (rowCount df : Int) →
      ∃ t, samplingStep g df n = .ok t ∧ (rowCount t : Int) = n) := by
  constructor
  · intro h
    unfold samplingStep
    rw [if_neg (not_lt.mpr h)]
  · intro h
    have hn0 : ¬ n < 0 := by omega
    have hmlt : n.toNat < rowCount df := by omega
    have hrpos : 0 < rowCount df := by omega
    have hcols : df.cols ≠ [] := by
      intro hc
      simp [rowCount, hc] at hrpos
    refine ⟨selectRows df
        (drawIdxs n.toNat ((some 42).getD g) (List.range (rowCount df))), ?_, ?_⟩
    · unfold samplingStep dfSample
      rw [if_pos h, if_neg hn0, if_neg (not_lt.mpr (le_of_lt hmlt))]
    · rw [rowCount_selectRows df _ hcols
        (fun i hi => List.mem_range.mp (drawIdxs_mem _ _ _ _ hi))]
      rw [drawIdxs_length, List.length_range, min_eq_left (le_of_lt hmlt)]
      omega

/-- Closed witness for `samplingStep_bound` at a concrete table and bound. -/
theorem samplingStep_bound_witness :
    ((rowCount exTab3 : Int) ≤ 2 → samplingStep 0 exTab3 2 = .ok exTab3) ∧
    (2 < (rowCount exTab3 : Int) →
      ∃ t, samplingStep 0 exTab3 2 = .ok t ∧ (rowCount t : Int) = 2) :=
  samplingStep_bound 0 exTab3 2 (by decide)

/-- C3: sampling is deterministic — the fixed literal seed 42 shadows the
interpreter-global generator state, so the result does not depend on it. -/
theorem samplingStep_deterministic (g₁ g₂ : Nat) (df : DataFrame) (n : Int) :
    samplingStep g₁ df n = samplingStep g₂ df n := rfl

/-- C5 counterexample: with bound 0 and a one-row table, the sampling step
returns an empty table successfully instead of failing with any error. -/
theorem samplingStep_c5_cex :
    samplingStep 0 exTab1 0 = .ok ⟨[⟨"a", .number, []⟩]⟩ := rfl

/-- C5 (amended): the sampling step performs no bound validation of its own.
When the table has more rows than the bound, a zero bound yields an empty
table (success), and a negative bound surfaces the pandas `ValueError` for a
negative row request — no `InvalidBound` error exists in the code. -/
theorem samplingStep_no_bound_check (g : Nat) (df : DataFrame) (n : Int)
    (h : n < (rowCount df : Int)) :
    (n = 0 → ∃ t, samplingStep g df n = .ok t ∧ rowCount t = 0) ∧
    (n < 0 → samplingStep g df n = .error .negativeRows) := by
  constructor
  · rintro rfl
    refine ⟨selectRows df [], ?_, rowCount_selectRows_nil df⟩
    unfold samplingStep dfSample
    rw [if_pos h]
    simp [drawIdxs]
  · intro hneg
    unfold samplingStep dfSample
    rw [if_pos h, if_pos hneg]

/-- Closed witness for `samplingStep_no_bound_check` at a concrete table. -/
theorem samplingStep_no_bound_check_witness :
    ((0 : Int) = 0 → ∃ t, samplingStep 0 exTab1 0 = .ok t ∧ rowCount t = 0) ∧
    ((0 : Int) < 0 → samplingStep 0 exTab1 0 = .error .negativeRows) :=
  samplingStep_no_bound_check 0 exTab1 0 (by decide)

/-! ## Claim theorems: TableLoader -/

/-- C8: when the lowercased source name ends in none of the recognized
extensions, `load_table` raises the "Unsupported file type" error instead of
returning a table. -/
theorem load_table_unsupported (data : FileData) (filename : String)
    (sheet : Option String)
    (h1 : pyEndsWith (pyLower filename) ".csv" = false)
    (h2 : pyEndsWith (pyLower filename) ".xlsx" = false)
    (h3 : pyEndsWith (pyLower filename) ".xls" = false) :
    load_table data filename sheet = .error .unsupportedFormat := by
  simp [load_table, h1, h2, h3]

/-- Closed witness for `load_table_unsupported` on a `.json` source name. -/
theorem load_table_unsupported_witness :
    load_table .invalid "data.json" none = .error .unsupportedFormat :=
  load_table_unsupported .invalid "data.json" none (by decide) (by decide) (by decide)

/-- C4 counterexample: on a two-sheet workbook with the sheet selector
omitted, `load_table` succeeds with the mapping of all sheets — it does not
fail with any error. -/
theorem load_table_c4_cex :
    load_table (.workbook exSheets) "book.xlsx" none = .ok (.frames exSheets) := by
  rfl

/-- C4 (amended): omitting the sheet selector on a multi-sheet workbook is
not an error in `load_table`: it forwards `sheet_name=None` to the
spreadsheet reader, which returns every sheet; sheet ambiguity is resolved
upstream by the UI sheet selector, not by an `AmbiguousSheet` failure. -/
theorem load_table_multisheet_none (sheets : List (String × DataFrame))
    (filename : String)
    (h0 : pyEndsWith (pyLower filename) ".csv" = false)
    (h1 : pyEndsWith (pyLower filename) ".xlsx" = true)
    (_hs : 1 < sheets.length) :
    load_table (.workbook sheets) filename none = .ok (.frames sheets) := by
  simp [load_table, h0, h1, read_excel]

/-- Closed witness for `load_table_multisheet_none` on a concrete workbook. -/
theorem load_table_multisheet_none_witness :
    load_table (.workbook exSheets) "report.xlsx" none = .ok (.frames exSheets) :=
  load_table_multisheet_none exSheets "report.xlsx" (by decide) (by decide) (by decide)

/-! ## Claim theorems: ColumnClassifier -/

/-- C9: `split_columns` partitions the column names — the two lists are
disjoint, together they cover exactly the table's columns, and the result is
a function of the table alone. -/
theorem split_columns_partition (df : DataFrame) :
    (∀ c, c ∈ (split_columns df).1 → c ∉ (split_columns df).2) ∧
    (∀ c, c ∈ df.columns ↔ (c ∈ (split_columns df).1 ∨ c ∈ (split_columns df).2)) ∧
    (∀ df₂, df₂ = df → split_columns df₂ = split_columns df) := by
  refine ⟨?_, ?_, ?_⟩
  · intro c h1 h2
    simp only [split_columns, List.mem_filter, decide_eq_true_eq] at h1 h2
    exact h2.2 h1
  · intro c
    constructor
    · intro hc
      by_cases hn : c ∈ (df.cols.filter (fun col => col.dtype == DType.number)).map (·.name)
      · left
        simpa [split_columns] using hn
      · right
        simp only [split_columns, List.mem_filter, decide_eq_true_eq]
        exact ⟨hc, hn⟩
    · intro h
      rcases h with h | h
      · simp only [split_columns, List.mem_map, List.mem_filter] at h
        obtain ⟨col, ⟨hmem, _⟩, hname⟩ := h
        exact hname ▸ List.mem_map_of_mem _ hmem
      · simp only [split_columns, List.mem_filter] at h
        exact h.1
  · intro df₂ hEq
    rw [hEq]

/-! ## Claim theorems: ChartSpecBuilder -/

/-- C1 counterexample: on the table a=[1,2], b=["x","y"] with x="a" and
y="b", `build_scatter` returns a figure (y rendered categorically) instead
of failing with any error. -/
theorem build_scatter_c1_cex :
    build_scatter exTabC1 "a" "b" none none none [] 1 =
      .ok ⟨⟨"a", "b", none, none, none, none, 1⟩, 20, 20, 30, 20, some ""⟩ := by
  rfl

/-- C1 (amended): `build_scatter` performs no numeric-role validation and
has no `InvalidEncoding` failure: whenever the chosen x and y names exist as
columns — of any dtype — and the opacity is in range, it returns a figure
encoding them. The app restricts the x and y selectors to numeric columns
upstream instead. -/
theorem build_scatter_ok_of_cols (df : DataFrame) (x y : String) (op : Rat)
    (hx : hasCol df x = true) (hy : hasCol df y = true)
    (h0 : 0 ≤ op) (h1 : op ≤ 1) :
    ∃ f, build_scatter df x y none none none [] op = .ok f ∧
      f.spec.x = x ∧ f.spec.y = y := by
  have hop : opacityErr op = none := by
    have hno : ¬ (op < 0 ∨ 1 < op) := by
      push_neg
      exact ⟨h0, h1⟩
    simp [opacityErr, hno]
  refine ⟨update_layout ⟨⟨x, y, none, none, none, none, op⟩, 80, 80, 100, 80, none⟩,
    ?_, rfl, rfl⟩
  simp [build_scatter, px_scatter, roleErr, sizeErr, hoverErr, firstErr,
    pyStr, pyList, hx, hy, hop, Except.map]

/-- Closed witness for `build_scatter_ok_of_cols` at the C1 table, with the
non-numeric column "b" on the y axis. -/
theorem build_scatter_ok_of_cols_witness :
    ∃ f, build_scatter exTabC1 "a" "b" none none none [] 1 = .ok f ∧
      f.spec.x = "a" ∧ f.spec.y = "b" :=
  build_scatter_ok_of_cols exTabC1 "a" "b" 1
    (by decide) (by decide) (by decide) (by decide)

/-- C6 counterexample: on a table with columns ["a","b"] and tooltip list
["a","z"], `build_scatter` fails on the unknown name "z" instead of
filtering the list down to ["a"]. -/
theorem build_scatter_c6_cex :
    build_scatter exTabC6 "a" "b" none none none ["a", "z"] 1 =
      .error (.missingColumn "hover_data" "z") := by
  rfl

/-- C6 (amended): `build_scatter` does not filter the tooltip list; it hands
it unchanged to the plotting call, which fails on any unknown name. When
every tooltip name is a column of the table — which the multiselect widget
guarantees, its options being exactly the table's columns — the figure
carries the tooltip list verbatim. -/
theorem build_scatter_tooltip_passthrough (df : DataFrame) (x y : String)
    (hover : List String) (op : Rat)
    (hx : hasCol df x = true) (hy : hasCol df y = true)
    (hh : ∀ c ∈ hover, hasCol df c = true)
    (hne : hover ≠ [])
    (h0 : 0 ≤ op) (h1 : op ≤ 1) :
    ∃ f, build_scatter df x y none none none hover op = .ok f ∧
      f.spec.hover = some hover := by
  have hop : opacityErr op = none := by
    have hno : ¬ (op < 0 ∨ 1 < op) := by
      push_neg
      exact ⟨h0, h1⟩
    simp [opacityErr, hno]
  have hpl : pyList hover = some hover := by
    cases hover with
    | nil => exact absurd rfl hne
    | cons a as => rfl
  have hhe : hoverErr df hover = none := by
    have : hover.find? (fun h => !hasCol df h) = none := by
      rw [List.find?_eq_none]
      intro c hc
      simp [hh c hc]
    simp [hoverErr, this]
  refine ⟨update_layout ⟨⟨x, y, none, none, none, some hover, op⟩, 80, 80, 100, 80, none⟩,
    ?_, rfl⟩
  simp [build_scatter, px_scatter, roleErr, sizeErr, firstErr,
    pyStr, hpl, hhe, hx, hy, hop, Except.map]

/-- Closed witness for `build_scatter_tooltip_passthrough`: tooltip list
["b","a"] passes through in order. -/
theorem build_scatter_tooltip_passthrough_witness :
    ∃ f, build_scatter exTabC6 "a" "b" none none none ["b", "a"] 1 = .ok f ∧
      f.spec.hover = some ["b", "a"] :=
  build_scatter_tooltip_passthrough exTabC6 "a" "b" ["b", "a"] 1
    (by decide) (by decide) (by decide) (by decide) (by decide) (by decide)

/-- C10: `build_scatter` routes color, symbol and size through Python
truthiness, so the empty string — the name of an existing column — is
treated exactly like the unset sentinel: the figure is built with those
roles unset rather than encoding the "" column. -/
theorem build_scatter_falsy_empty_name (df : DataFrame) (x y : String) (op : Rat)
    (_hempty : hasCol df "" = true)
    (hx : hasCol df x = true) (hy : hasCol df y = true)
    (h0 : 0 ≤ op) (h1 : op ≤ 1) :
    ∃ f, build_scatter df x y (some "") (some "") (some "") [] op = .ok f ∧
      f.spec.color = none ∧ f.spec.symbol = none ∧ f.spec.sizeCol = none := by
  have hop : opacityErr op = none := by
    have hno : ¬ (op < 0 ∨ 1 < op) := by
      push_neg
      exact ⟨h0, h1⟩
    simp [opacityErr, hno]
  refine ⟨update_layout ⟨⟨x, y, none, none, none, none, op⟩, 80, 80, 100, 80, none⟩,
    ?_, rfl, rfl, rfl⟩
  simp [build_scatter, px_scatter, roleErr, sizeErr, hoverErr, firstErr,
    pyStr, pyList, hx, hy, hop, Except.map]

/-- Closed witness for `build_scatter_falsy_empty_name` at a table whose
first column is named "". -/
theorem build_scatter_falsy_empty_name_witness :
    ∃ f, build_scatter exTabC10 "a" "b" (some "") (some "") (some "") [] 1 = .ok f ∧
      f.spec.color = none ∧ f.spec.symbol = none ∧ f.spec.sizeCol = none :=
  build_scatter_falsy_empty_name exTabC10 "a" "b" 1
    (by decide) (by decide) (by decide) (by decide) (by decide)

/-! ## Claim theorems: Exporter -/

/-- C7: when the rendering engine is unavailable, `fig_to_png_bytes` fails
with `RenderEngineUnavailable`, the export section catches it and shows a
warning instead of aborting, and the HTML download bytes are exactly the
ones `fig_to_html_bytes` produces — identical to what they are when the
engine is available. -/
theorem export_png_warn_html_unaffected (f : Fig) (render : Fig → Nat → List Nat) :
    fig_to_png_bytes none f = .error .renderEngineUnavailable ∧
    (exportSection none f).pngOutcome = .warned .renderEngineUnavailable ∧
    (exportSection none f).htmlDownload = fig_to_html_bytes f ∧
    (exportSection none f).htmlDownload = (exportSection (some render) f).htmlDownload :=
  ⟨rfl, rfl, rfl, rfl⟩

end VizTools
